import Mathlib

/-!
SSHClient: interactive SSH login with a private key

A shallow embedding of `sshclient-login-key.go`.

* The four package-level variables are the record `Globals`.
* `init` registers the four string flags on the command-line flag set.
* `flag.Parse` is embedded from the Go standard library (`FlagSet.parseOne`,
  `FlagSet.Parse`, the `ExitOnError` policy of `flag.CommandLine`).
* Every call that leaves the program (file system, SSH library, standard
  streams) is answered by an environment `Env`; the calls made are recorded,
  in order, in the trace of the process state `Proc`.
* `os.Exit` ends the process without running deferred calls, as in Go.
* The final `for` statement is unrolled `fuel` times.

Go strings are byte strings; the only bytes the program inspects are the
ASCII characters `-`, `=` and `:`, so `String` with character tests is used.
-/

namespace SSHClient

/-! ## Package-level variables -/

/-- The four package-level string variables of the program. -/
structure Globals where
  username : String
  serverIP : String
  serverPort : String
  pKeyFile : String
deriving DecidableEq, Repr

/-- Addresses of the package-level variables (the `&x` handed to `flag.StringVar`). -/
inductive Var where
  | username
  | serverIP
  | serverPort
  | pKeyFile
deriving DecidableEq, Repr

/-- Go zero values of the package-level variables, before `init` runs. -/
def Globals.zero : Globals := ⟨"", "", "", ""⟩

/-- Read through a pointer. -/
def Globals.get (g : Globals) : Var → String
  | .username => g.username
  | .serverIP => g.serverIP
  | .serverPort => g.serverPort
  | .pKeyFile => g.pKeyFile

/-- Write through a pointer: `*p = val` (this is `stringValue.Set`). -/
def Globals.set (g : Globals) (p : Var) (val : String) : Globals :=
  match p with
  | .username => { g with username := val }
  | .serverIP => { g with serverIP := val }
  | .serverPort => { g with serverPort := val }
  | .pKeyFile => { g with pKeyFile := val }

/-! ## The `flag` package (string flags only) -/

/-- A registered flag: its name, the variable its value points to, its default. -/
structure Flag where
  name : String
  value : Var
  defValue : String
deriving DecidableEq, Repr

/-- The part of `flag.FlagSet` that parsing reads and writes.
`formal` and `actual` are Go maps keyed by flag name; `actual` is kept as the
list of its keys. -/
structure FlagSet where
  parsed : Bool
  actual : List String
  formal : List Flag
  args : List String
deriving DecidableEq, Repr

/-- The errors `parseOne` can return for string flags. -/
inductive FlagError where
  | badFlag (s : String)
  | help
  | notDefined (name : String)
  | needsArgument (name : String)
deriving DecidableEq, Repr

/-- Text of a flag error (`err.Error()`). -/
def FlagError.Error : FlagError → String
  | .badFlag s => "bad flag syntax: " ++ s
  | .help => "flag: help requested"
  | .notDefined name => "flag provided but not defined: -" ++ name
  | .needsArgument name => "flag needs an argument: -" ++ name

/-- Map lookup `f.formal[name]`. -/
def FlagSet.lookup (f : FlagSet) (name : String) : Option Flag :=
  f.formal.find? (fun fl => fl.name == name)

/-- Registration `f.StringVar(p, name, value, usage)`: stores the default
through the pointer and enters the flag in `formal`.  (Registering a name
twice panics in Go; the program registers four distinct names.) -/
def FlagSet.StringVar (f : FlagSet) (g : Globals) (p : Var) (name value : String) :
    FlagSet × Globals :=
  ({ f with formal := f.formal ++ [⟨name, p, value⟩] }, g.set p value)

/-- The loop of `parseOne` that looks for `=` in the flag name, from index `i`
on ("equals cannot be first").  Returns name, `hasValue`, value. -/
def splitEquals (name : List Char) : Nat → Nat → List Char × Bool × List Char
  | 0, _ => (name, false, [])
  | fuel + 1, i =>
    if i < name.length then
      if name.get? i = some '=' then (name.take i, true, name.drop (i + 1))
      else splitEquals name fuel (i + 1)
    else (name, false, [])

/-- Result of one call of `parseOne`: the Go pair `(bool, error)`. -/
structure Seen where
  seen : Bool
  err : Option FlagError
deriving DecidableEq, Repr

/-- Embedding of `(*FlagSet).parseOne` for a flag set holding string flags. -/
def FlagSet.parseOne (f : FlagSet) (g : Globals) : Seen × FlagSet × Globals :=
  match f.args with
  | [] => (⟨false, none⟩, f, g)
  | s :: rest =>
    let cs := s.data
    if cs.length < 2 ∨ cs.get? 0 ≠ some '-' then (⟨false, none⟩, f, g)
    else
      let numMinuses := if cs.get? 1 = some '-' then 2 else 1
      if numMinuses = 2 ∧ cs.length = 2 then
        -- "--" terminates the flags
        (⟨false, none⟩, { f with args := rest }, g)
      else
        let name := cs.drop numMinuses
        if name.length = 0 ∨ name.get? 0 = some '-' ∨ name.get? 0 = some '=' then
          (⟨false, some (.badFlag s)⟩, f, g)
        else
          -- it is a flag; does it have an argument?
          let f1 := { f with args := rest }
          let sp := splitEquals name name.length 1
          let name := String.mk sp.1
          let hasValue := sp.2.1
          let value := String.mk sp.2.2
          match f1.lookup name with
          | none =>
            if name = "help" ∨ name = "h" then (⟨false, some .help⟩, f1, g)
            else (⟨false, some (.notDefined name)⟩, f1, g)
          | some flag =>
            -- a string flag must have a value, which might be the next argument
            match hasValue, f1.args with
            | true, _ =>
              (⟨true, none⟩, { f1 with actual := f1.actual.insert name },
                g.set flag.value value)
            | false, v :: rest1 =>
              (⟨true, none⟩, { f1 with args := rest1, actual := f1.actual.insert name },
                g.set flag.value v)
            | false, [] => (⟨false, some (.needsArgument name)⟩, f1, g)

/-- The loop of `(*FlagSet).Parse`: call `parseOne` until it reports no flag.
`none` means the unrolling bound was reached. -/
def FlagSet.parseLoop : Nat → FlagSet → Globals → Option (Except FlagError (FlagSet × Globals))
  | 0, _, _ => none
  | fuel + 1, f, g =>
    match f.parseOne g with
    | (⟨true, _⟩, f1, g1) => FlagSet.parseLoop fuel f1 g1
    | (⟨false, none⟩, f1, g1) => some (.ok (f1, g1))
    | (⟨false, some e⟩, _, _) => some (.error e)

/-- Embedding of `(*FlagSet).Parse(arguments)` up to the error-handling switch:
every iteration that continues consumes an argument, so `arguments.length + 1`
iterations are enough. -/
def FlagSet.Parse (f : FlagSet) (g : Globals) (arguments : List String) :
    Option (Except FlagError (FlagSet × Globals)) :=
  FlagSet.parseLoop (arguments.length + 1) { f with parsed := true, args := arguments } g

/-- The flag set `flag.CommandLine` before any registration. -/
def CommandLine : FlagSet := ⟨false, [], [], []⟩

/-- Embedding of `init`: the four `flag.StringVar` registrations. -/
def init : FlagSet × Globals :=
  let s0 := CommandLine.StringVar Globals.zero .serverPort "port" "22"
  let s1 := s0.1.StringVar s0.2 .serverIP "ip" "127.0.0.1"
  let s2 := s1.1.StringVar s1.2 .username "user" ""
  s2.1.StringVar s2.2 .pKeyFile "pkey" ""

/-! ## The SSH library and the operating system, as seen by `main` -/

/-- Raw bytes (file contents, key blobs). -/
abbrev Bytes := List Nat

/-- A Go `error` value, represented by its message `err.Error()`. -/
abbrev GoError := String

/-- A signer returned by `ssh.ParsePrivateKey`. -/
structure Signer where
  key : Bytes
deriving DecidableEq, Repr

/-- Client authentication methods offered by the SSH library. -/
inductive AuthMethod where
  | Password (secret : String)
  | PublicKeys (signers : List Signer)
  | KeyboardInteractive
deriving DecidableEq, Repr

/-- Host-key callbacks the SSH library can build. -/
inductive HostKeyCallback where
  | InsecureIgnoreHostKey
  | FixedHostKey (key : Bytes)
deriving DecidableEq, Repr

/-- Calling a host-key callback on `(hostname, remote, key)`; `none` is a nil error.
`InsecureIgnoreHostKey` is the library function whose body is `return nil`. -/
def HostKeyCallback.call : HostKeyCallback → String → String → Bytes → Option GoError
  | .InsecureIgnoreHostKey, _, _, _ => none
  | .FixedHostKey k, _, _, key => if key = k then none else some "ssh: host key mismatch"

/-- The fields of `ssh.ClientConfig` that `main` fills in. -/
structure ClientConfig where
  User : String
  Auth : List AuthMethod
  HostKeyCallback : HostKeyCallback
deriving DecidableEq, Repr

/-- The constant `ssh.ECHO`. -/
def ECHO : Nat := 53

/-- The map type `ssh.TerminalModes`, as its list of entries. -/
abbrev TerminalModes := List (Nat × Nat)

/-- The standard streams of the process. -/
inductive Stream where
  | Stdin
  | Stdout
  | Stderr
deriving DecidableEq, Repr

/-- Handle of an established client connection. -/
structure Client where
  id : Nat
deriving DecidableEq, Repr

/-- A session value: its handle and the two output fields `main` assigns. -/
structure Session where
  id : Nat
  Stdout : Option Stream
  Stderr : Option Stream
deriving DecidableEq, Repr

/-- Handle of the pipe returned by `StdinPipe`. -/
structure WriteCloser where
  id : Nat
deriving DecidableEq, Repr

/-- Answers of the world to the calls `main` makes. `none` in an error position
is a nil error.  `Copy i` is the result `(written, err)` of the `i`-th `io.Copy`. -/
structure Env where
  ReadFile : String → Except GoError Bytes
  ParsePrivateKey : Bytes → Except GoError Signer
  Dial : String → String → ClientConfig → Except GoError Client
  NewSession : Client → Except GoError Nat
  StdinPipe : Session → Except GoError WriteCloser
  RequestPty : Session → String → Nat → Nat → TerminalModes → Option GoError
  Shell : Session → Option GoError
  Copy : Nat → Int × Option GoError

/-- Observable actions of the process, in the order they happen. -/
inductive Event where
  | stdout (s : String)
  | stderr (s : String)
  | usage
  | ReadFile (path : String)
  | ParsePrivateKey (pem : Bytes)
  | Dial (network addr : String) (config : ClientConfig)
  | NewSession (c : Client)
  | StdinPipe (s : Session)
  | RequestPty (s : Session) (term : String) (h w : Nat) (modes : TerminalModes)
  | Shell (s : Session)
  | Copy (dst : WriteCloser) (src : Stream)
  | Close (sessionId : Nat)
deriving DecidableEq, Repr

/-- A call registered with `defer`. -/
inductive Deferred where
  | sessionClose (sessionId : Nat)
deriving DecidableEq, Repr

/-- Whether the process is still executing `main` or has terminated.  Every
way out of `main` in the source is a call of `os.Exit`: it has no `return`, and
its last statement is a `for` without condition or `break`. -/
inductive Status where
  | running
  | exited (code : Nat)
deriving DecidableEq, Repr

/-- State of the process: variables, flag set, what it has done so far, the
deferred calls of `main` not yet run, and its status. -/
structure Proc where
  vars : Globals
  flags : FlagSet
  trace : List Event
  deferred : List Deferred
  status : Status
deriving DecidableEq, Repr

/-- Record an action. -/
def Proc.emit (p : Proc) (e : Event) : Proc := { p with trace := p.trace ++ [e] }

/-- Embedding of `os.Exit(code)`: the process terminates at once; deferred
calls are not run. -/
def Proc.osExit (p : Proc) (code : Nat) : Proc := { p with status := .exited code }

/-- Embedding of `defer`: push a call on the stack of deferred calls. -/
def Proc.defer (p : Proc) (d : Deferred) : Proc := { p with deferred := d :: p.deferred }

/-- Running one deferred call. -/
def Deferred.run (p : Proc) : Deferred → Proc
  | .sessionClose sid => p.emit (.Close sid)

/-- What Go does when a function returns: its deferred calls run, the last
registered first.  `os.Exit` does not pass through here. -/
def Proc.runDeferred (p : Proc) : Proc :=
  { p.deferred.foldl Deferred.run p with deferred := [] }

/-- Text written by `fmt.Println(operands...)`: operands separated by spaces,
newline appended. -/
def fmtPrintln (operands : List String) : String := " ".intercalate operands ++ "\n"

/-- Embedding of `fmt.Println` on the process. -/
def Proc.Println (p : Proc) (operands : List String) : Proc :=
  p.emit (.stdout (fmtPrintln operands))

/-- Embedding of `net.JoinHostPort`: a host containing a colon is bracketed. -/
def JoinHostPort (host port : String) : String :=
  if ':' ∈ host.data then "[" ++ host ++ "]:" ++ port else host ++ ":" ++ port

/-- The process after `init` has run. -/
def Proc.start : Proc := ⟨init.2, init.1, [], [], .running⟩

/-- Embedding of `flag.Parse()`: parse `os.Args[1:]` with the command-line flag
set, whose error policy is `ExitOnError`: an error is reported on standard
error together with the usage text, then the process exits, with status 0 for
a help request (Go 1.15 and later) and 2 otherwise.  `.error` carries the
terminated process; its variables are no longer observable and are left as
they were before the call.  The case `none` does not arise (`Parse_isSome`). -/
def Proc.flagParse (p : Proc) (args : List String) : Except Proc Proc :=
  match p.flags.Parse p.vars args with
  | none => .error p
  | some (.ok (f, g)) => .ok { p with flags := f, vars := g }
  | some (.error .help) => .error ((p.emit .usage).osExit 0)
  | some (.error e) => .error (((p.emit (.stderr (fmtPrintln [e.Error]))).emit .usage).osExit 2)

/-- The final `for` statement of `main`, unrolled `fuel` times: each iteration
calls `io.Copy(input, os.Stdin)` and discards its result. -/
def copyLoop (env : Env) (input : WriteCloser) : Nat → Nat → Proc → Proc
  | 0, _, p => p
  | fuel + 1, i, p =>
    let _ := env.Copy i
    copyLoop env input fuel (i + 1) (p.emit (.Copy input .Stdin))

/-- Embedding of `main`, run on the command-line arguments `args` in the
environment `env`, with the final loop unrolled `fuel` times. -/
def main (env : Env) (args : List String) (fuel : Nat) : Proc :=
  -- Parse flags
  match Proc.start.flagParse args with
  | .error p => p
  | .ok p =>
  -- Check if username and pKey have been submitted
  if p.vars.username = "" then (p.Println ["Must supply username"]).osExit 2
  else if p.vars.pKeyFile = "" then (p.Println ["Must supply private key"]).osExit 2
  else
  -- Now we must read the private key
  let p := p.emit (.ReadFile p.vars.pKeyFile)
  match env.ReadFile p.vars.pKeyFile with
  | .error err => (p.Println ["Failed to read private key from file", err]).osExit 2
  | .ok pKey =>
  -- Create a signer with the private key
  let p := p.emit (.ParsePrivateKey pKey)
  match env.ParsePrivateKey pKey with
  | .error err => (p.Println ["Failed to parse private key", err]).osExit 2
  | .ok signer =>
  -- Create SSH config
  let config : ClientConfig :=
    { User := p.vars.username
      Auth := [AuthMethod.PublicKeys [signer]]
      HostKeyCallback := HostKeyCallback.InsecureIgnoreHostKey }
  -- Server address
  let t := JoinHostPort p.vars.serverIP p.vars.serverPort
  -- Connect to the SSH server
  let p := p.emit (.Dial "tcp" t config)
  match env.Dial "tcp" t config with
  | .error err =>
    (((p.emit (.stdout ("Failed to connect to " ++ t ++ "\n"))).Println [err])).osExit 2
  | .ok sshConn =>
  -- Create new SSH session
  let p := p.emit (.NewSession sshConn)
  match env.NewSession sshConn with
  | .error err =>
    (((p.emit (.stdout ("Cannot create SSH session to " ++ t ++ "\n"))).Println [err])).osExit 2
  | .ok sid =>
  let session : Session := ⟨sid, none, none⟩
  -- Close the session when main returns
  let p := p.defer (.sessionClose sid)
  -- For an interactive session we must redirect IO
  let session := { session with Stdout := some Stream.Stdout }
  let session := { session with Stderr := some Stream.Stderr }
  let p := p.emit (.StdinPipe session)
  match env.StdinPipe session with
  | .error err => (p.Println ["Error redirecting session input", err]).osExit 2
  | .ok input =>
  let termModes : TerminalModes := [(ECHO, 0)]
  -- Request pty
  let p := p.emit (.RequestPty session "vt220" 40 80 termModes)
  match env.RequestPty session "vt220" 40 80 termModes with
  | some err => (p.Println ["RequestPty failed", err]).osExit 2
  | none =>
  -- Now we can start a remote shell
  let p := p.emit (.Shell session)
  match env.Shell session with
  | some err => (p.Println ["shell failed", err]).osExit 2
  | none =>
  -- Endless loop to capture commands
  copyLoop env input fuel 0 p

/-- Invariant of the parse loop: a variable whose flag name is not in `actual`
still holds its default. -/
def DefaultsKept (f : FlagSet) (g : Globals) : Prop :=
  f.formal = init.1.formal ∧
  ("port" ∉ f.actual → g.serverPort = "22") ∧
  ("ip" ∉ f.actual → g.serverIP = "127.0.0.1") ∧
  ("user" ∉ f.actual → g.username = "") ∧
  ("pkey" ∉ f.actual → g.pKeyFile = "")

/-- The name under which `init` registers the flag of each variable. -/
def Var.flagName : Var → String
  | .serverPort => "port"
  | .serverIP => "ip"
  | .username => "user"
  | .pKeyFile => "pkey"

/-- One flag as supplied on a command line: which flag, whether it is written
with two minus signs, whether the value is attached with `=` or is the next
argument, and the value. -/
structure Supplied where
  field : Var
  twoMinuses : Bool
  attached : Bool
  value : String
deriving DecidableEq, Repr

/-- The command-line arguments that supply a flag: `-name value`, `--name value`,
`-name=value` or `--name=value`. -/
def Supplied.render (s : Supplied) : List String :=
  let lead := (if s.twoMinuses then "--" else "-") ++ s.field.flagName
  if s.attached then [lead ++ "=" ++ s.value] else [lead, s.value]

/-- Specification of a supplied flag, in the words of the specification: it
overrides its own field and leaves the other three unchanged. -/
def Supplied.override (g : Globals) (s : Supplied) : Globals :=
  { username := if s.field = .username then s.value else g.username
    serverIP := if s.field = .serverIP then s.value else g.serverIP
    serverPort := if s.field = .serverPort then s.value else g.serverPort
    pKeyFile := if s.field = .pKeyFile then s.value else g.pKeyFile }

/-! ## Sample inputs -/

/-- An environment in which every call succeeds. -/
def sampleEnv : Env :=
  { ReadFile := fun _ => .ok [45, 45, 45]
    ParsePrivateKey := fun b => .ok ⟨b⟩
    Dial := fun _ _ _ => .ok ⟨7⟩
    NewSession := fun _ => .ok 1
    StdinPipe := fun _ => .ok ⟨9⟩
    RequestPty := fun _ _ _ _ _ => none
    Shell := fun _ => none
    Copy := fun _ => (0, none) }

/-- The arguments `-user alice -pkey k`. -/
def sampleArgs : List String := ["-user", "alice", "-pkey", "k"]

/-- The process after `flag.Parse` on `sampleArgs`. -/
def sampleProc : Proc :=
  ⟨⟨"alice", "127.0.0.1", "22", "k"⟩, ⟨true, ["pkey", "user"], init.1.formal, []⟩, [], [],
    .running⟩

/-- The process after `flag.Parse` on the arguments `-pkey k`. -/
def noUserProc : Proc :=
  ⟨⟨"", "127.0.0.1", "22", "k"⟩, ⟨true, ["pkey"], init.1.formal, []⟩, [], [], .running⟩

/-- The session of the sample runs, with both output fields assigned. -/
def sampleSession : Session := ⟨1, some .Stdout, some .Stderr⟩

/-- The client configuration of the sample runs. -/
def sampleConfig : ClientConfig :=
  ⟨"alice", [.PublicKeys [⟨[45, 45, 45]⟩]], .InsecureIgnoreHostKey⟩

/-! ## Auxiliary facts -/

theorem fmtPrintln_one (a : String) : fmtPrintln [a] = a ++ "\n" := by
  simp [fmtPrintln, String.intercalate, String.intercalate.go]

theorem fmtPrintln_two (a b : String) : fmtPrintln [a, b] = a ++ " " ++ b ++ "\n" := by
  simp [fmtPrintln, String.intercalate, String.intercalate.go]

theorem append_newline_ne_empty (a : String) : a ++ "\n" ≠ "" := by
  intro h
  have h1 := congrArg String.length h
  simp [String.length_append] at h1
  exact absurd h1.2 (by decide)

/-- A successful `flag.Parse` leaves a running process that has done nothing yet. -/
theorem flagParse_ok {args : List String} {p : Proc}
    (h : Proc.start.flagParse args = .ok p) :
    p.trace = [] ∧ p.deferred = [] ∧ p.status = .running := by
  unfold Proc.flagParse at h
  split at h <;> simp at h
  subst h
  simp [Proc.start]

theorem copyLoop_trace (env : Env) (input : WriteCloser) (fuel i : Nat) (p : Proc) :
    (copyLoop env input fuel i p).trace
      = p.trace ++ List.replicate fuel (Event.Copy input Stream.Stdin) := by
  induction fuel generalizing i p with
  | zero => simp [copyLoop]
  | succ n ih =>
    simp [copyLoop, ih, Proc.emit, List.replicate_succ]

theorem copyLoop_status (env : Env) (input : WriteCloser) (fuel i : Nat) (p : Proc) :
    (copyLoop env input fuel i p).status = p.status := by
  induction fuel generalizing i p with
  | zero => simp [copyLoop]
  | succ n ih => simp [copyLoop, ih, Proc.emit]

theorem copyLoop_deferred (env : Env) (input : WriteCloser) (fuel i : Nat) (p : Proc) :
    (copyLoop env input fuel i p).deferred = p.deferred := by
  induction fuel generalizing i p with
  | zero => simp [copyLoop]
  | succ n ih => simp [copyLoop, ih, Proc.emit]

/-! ## Facts about flag parsing -/

/-- One call of `parseOne` keeps the registered flags; when it reports a flag
it has consumed at least one argument, written one registered variable and
entered the flag name in `actual`; otherwise variables and `actual` are
untouched. -/
theorem parseOne_shape (f : FlagSet) (g : Globals) :
    (f.parseOne g).2.1.formal = f.formal ∧
    (((f.parseOne g).1.seen = false ∧ (f.parseOne g).2.2 = g ∧
        (f.parseOne g).2.1.actual = f.actual) ∨
      ((f.parseOne g).1.seen = true ∧
        (f.parseOne g).2.1.args.length < f.args.length ∧
        ∃ name flag val, f.lookup name = some flag ∧
          (f.parseOne g).2.2 = g.set flag.value val ∧
          (f.parseOne g).2.1.actual = f.actual.insert name)) := by
  obtain ⟨ps, ac, fm, ar⟩ := f
  unfold FlagSet.parseOne
  simp only [FlagSet.lookup]
  repeat' split
  all_goals simp_all
  all_goals first
    | exact ⟨_, _, by assumption, ⟨_, rfl⟩, rfl⟩
    | exact ⟨by omega, _, _, by assumption, ⟨_, rfl⟩, rfl⟩

/-- What `parseOne` returns, which arguments it leaves and which variable it
writes depend only on the registered flags and the arguments. -/
theorem parseOne_congr (f f1 : FlagSet) (g g1 : Globals)
    (hf : f1.formal = f.formal) (ha : f1.args = f.args) :
    (f1.parseOne g1).1 = (f.parseOne g).1 ∧
    (f1.parseOne g1).2.1.args = (f.parseOne g).2.1.args ∧
    (((f.parseOne g).2.2 = g ∧ (f1.parseOne g1).2.2 = g1) ∨
      ∃ v val, (f.parseOne g).2.2 = g.set v val ∧ (f1.parseOne g1).2.2 = g1.set v val) := by
  obtain ⟨ps, ac, fm, ar⟩ := f
  obtain ⟨ps1, ac1, fm1, ar1⟩ := f1
  simp only at hf ha
  subst hf ha
  unfold FlagSet.parseOne
  simp only [FlagSet.lookup]
  repeat' split
  all_goals simp_all
  all_goals exact Or.inr ⟨_, _, rfl, rfl⟩

/-- One unrolling of the parse loop. -/
theorem parseLoop_succ (n : Nat) (f : FlagSet) (g : Globals) :
    FlagSet.parseLoop (n + 1) f g =
      if (f.parseOne g).1.seen = true then
        FlagSet.parseLoop n (f.parseOne g).2.1 (f.parseOne g).2.2
      else match (f.parseOne g).1.err with
        | none => some (.ok ((f.parseOne g).2.1, (f.parseOne g).2.2))
        | some e => some (.error e) := by
  rcases hpo : f.parseOne g with ⟨⟨seen, err⟩, fa, ga⟩
  cases seen <;> cases err <;> simp [FlagSet.parseLoop, hpo]

/-- The parse loop ends within the bound: more unrollings than arguments always
produce a result, so `FlagSet.Parse` never reports the bound. -/
theorem parseLoop_isSome (n : Nat) (f : FlagSet) (g : Globals) (h : f.args.length < n) :
    (FlagSet.parseLoop n f g).isSome = true := by
  induction n generalizing f g with
  | zero => omega
  | succ m ih =>
    rw [parseLoop_succ]
    split
    · rename_i hs
      rcases (parseOne_shape f g).2 with ⟨h0, -, -⟩ | ⟨-, hlt, -⟩
      · rw [h0] at hs; cases hs
      · exact ih _ _ (by omega)
    · split <;> rfl

theorem Parse_isSome (f : FlagSet) (g : Globals) (arguments : List String) :
    (f.Parse g arguments).isSome = true :=
  parseLoop_isSome _ _ _ (by simp)

/-- The parse loop keeps the registered flags. -/
theorem parseLoop_formal (n : Nat) (f : FlagSet) (g : Globals) (f1 : FlagSet) (g1 : Globals)
    (h : FlagSet.parseLoop n f g = some (.ok (f1, g1))) : f1.formal = f.formal := by
  induction n generalizing f g with
  | zero => simp [FlagSet.parseLoop] at h
  | succ m ih =>
    rw [parseLoop_succ] at h
    split at h
    · rw [ih _ _ h, (parseOne_shape f g).1]
    · split at h
      · simp only [Option.some.injEq, Except.ok.injEq, Prod.mk.injEq] at h
        rw [← h.1]
        exact (parseOne_shape f g).1
      · simp at h

/-- Looking a name up among the flags registered by `init`. -/
theorem lookup_init (f : FlagSet) (name : String) (flag : Flag)
    (hf : f.formal = init.1.formal) (h : f.lookup name = some flag) :
    (name = "port" ∧ flag.value = .serverPort) ∨ (name = "ip" ∧ flag.value = .serverIP) ∨
    (name = "user" ∧ flag.value = .username) ∨ (name = "pkey" ∧ flag.value = .pKeyFile) := by
  unfold FlagSet.lookup at h
  rw [hf] at h
  simp only [init, FlagSet.StringVar, CommandLine, List.nil_append, List.cons_append,
    List.find?_cons, List.find?_nil] at h
  repeat' split at h
  all_goals simp_all
  all_goals (subst h; simp_all)

theorem parseOne_defaultsKept (f : FlagSet) (g : Globals) (h : DefaultsKept f g) :
    DefaultsKept (f.parseOne g).2.1 (f.parseOne g).2.2 := by
  obtain ⟨hf, h1, h2, h3, h4⟩ := h
  obtain ⟨hfm, hsh⟩ := parseOne_shape f g
  rcases hsh with ⟨-, hg, ha⟩ | ⟨-, -, name, flag, val, hl, hg, ha⟩
  · rw [DefaultsKept, hfm, hg, ha]
    exact ⟨hf, h1, h2, h3, h4⟩
  · rw [DefaultsKept, hfm, hg, ha]
    rcases lookup_init f name flag hf hl with ⟨rfl, hv⟩ | ⟨rfl, hv⟩ | ⟨rfl, hv⟩ | ⟨rfl, hv⟩ <;>
      rw [hv] <;> simp [Globals.set, List.mem_insert_iff] <;> tauto

theorem parseLoop_defaultsKept (n : Nat) (f : FlagSet) (g : Globals) (f1 : FlagSet)
    (g1 : Globals) (hinv : DefaultsKept f g)
    (h : FlagSet.parseLoop n f g = some (.ok (f1, g1))) : DefaultsKept f1 g1 := by
  induction n generalizing f g with
  | zero => simp [FlagSet.parseLoop] at h
  | succ m ih =>
    rw [parseLoop_succ] at h
    split at h
    · exact ih _ _ (parseOne_defaultsKept f g hinv) h
    · split at h
      · simp only [Option.some.injEq, Except.ok.injEq, Prod.mk.injEq] at h
        have := parseOne_defaultsKept f g hinv
        rw [h.1, h.2] at this
        exact this
      · simp at h

theorem Globals.get_set_same (g : Globals) (v : Var) (val : String) :
    (g.set v val).get v = val := by
  cases v <;> rfl

theorem Globals.get_set_ne (g : Globals) (v w : Var) (val : String) (h : w ≠ v) :
    (g.set v val).get w = g.get w := by
  cases v <;> cases w <;> first | rfl | exact absurd rfl h

theorem Globals.ext_get (a b : Globals) (h : ∀ v, a.get v = b.get v) : a = b := by
  have h1 := h .username
  have h2 := h .serverIP
  have h3 := h .serverPort
  have h4 := h .pKeyFile
  cases a
  cases b
  simp only [Globals.get] at h1 h2 h3 h4
  simp [h1, h2, h3, h4]

/-- Two parse loops over the same registered flags and arguments, started from
different variable contents: if the first succeeds so does the second, with the
same remaining arguments, and each variable either ends equal in both or was
written by neither. -/
theorem parseLoop_rel (n : Nat) (f f2 : FlagSet) (g g2 : Globals)
    (hf : f2.formal = f.formal) (ha : f2.args = f.args) (f1 : FlagSet) (g1 : Globals)
    (h : FlagSet.parseLoop n f g = some (.ok (f1, g1))) :
    ∃ f3 g3, FlagSet.parseLoop n f2 g2 = some (.ok (f3, g3)) ∧ f3.args = f1.args ∧
      ∀ v, g3.get v = g1.get v ∨ (g1.get v = g.get v ∧ g3.get v = g2.get v) := by
  induction n generalizing f f2 g g2 with
  | zero => simp [FlagSet.parseLoop] at h
  | succ m ih =>
    rw [parseLoop_succ] at h ⊢
    obtain ⟨hs, hargs, hvars⟩ := parseOne_congr f f2 g g2 hf ha
    rw [hs]
    split at h
    · rename_i hseen
      rw [if_pos hseen]
      have hfm : (f2.parseOne g2).2.1.formal = (f.parseOne g).2.1.formal := by
        rw [(parseOne_shape f2 g2).1, (parseOne_shape f g).1, hf]
      obtain ⟨f3, g3, h3, ha3, hv3⟩ :=
        ih (f.parseOne g).2.1 (f2.parseOne g2).2.1 (f.parseOne g).2.2 (f2.parseOne g2).2.2
          hfm hargs h
      refine ⟨f3, g3, h3, ha3, ?_⟩
      intro v
      rcases hvars with ⟨e1, e2⟩ | ⟨w, val, e1, e2⟩
      · rw [e1, e2] at hv3
        exact hv3 v
      · rw [e1, e2] at hv3
        rcases hv3 v with h0 | ⟨h1, h2⟩
        · exact Or.inl h0
        · by_cases hvw : v = w
          · subst hvw
            rw [Globals.get_set_same] at h1 h2
            exact Or.inl (h2.trans h1.symm)
          · rw [Globals.get_set_ne _ _ _ _ hvw] at h1 h2
            exact Or.inr ⟨h1, h2⟩
    · rename_i hseen
      rw [if_neg hseen]
      split at h
      · rename_i herr
        simp only [Option.some.injEq, Except.ok.injEq, Prod.mk.injEq] at h
        refine ⟨_, _, rfl, ?_, ?_⟩
        · rw [hargs, h.1]
        · intro v
          rcases hvars with ⟨e1, e2⟩ | ⟨w, val, e1, e2⟩
          · rw [e2, ← h.2, e1]
            exact Or.inr ⟨rfl, rfl⟩
          · rw [e2, ← h.2, e1]
            by_cases hvw : v = w
            · subst hvw
              rw [Globals.get_set_same, Globals.get_set_same]
              exact Or.inl rfl
            · rw [Globals.get_set_ne _ _ _ _ hvw, Globals.get_set_ne _ _ _ _ hvw]
              exact Or.inr ⟨rfl, rfl⟩
      · simp at h

/-- Unfolding a successful `flag.Parse()`. -/
theorem flagParse_ok_iff (p q : Proc) (args : List String) :
    p.flagParse args = .ok q ↔
      ∃ f g, p.flags.Parse p.vars args = some (.ok (f, g)) ∧
        q = { p with flags := f, vars := g } := by
  unfold Proc.flagParse
  constructor
  · intro h
    split at h
    case h_2 f g heq =>
      simp only [Except.ok.injEq] at h
      exact ⟨f, g, heq, h.symm⟩
    all_goals cases h
  · rintro ⟨f, g, h1, h2⟩
    simp [h1, h2]

/-- Parsing one supplied flag: whatever the state and whatever follows, the
call reports a flag, consumes exactly the arguments of that flag, writes its
value to its variable and enters its name in `actual`. -/
theorem parseOne_render (f : FlagSet) (g : Globals) (s : Supplied) (rest : List String)
    (hf : f.formal = init.1.formal) (ha : f.args = s.render ++ rest) :
    f.parseOne g =
      (⟨true, none⟩, { f with args := rest, actual := f.actual.insert s.field.flagName },
        g.set s.field s.value) := by
  obtain ⟨ps, ac, fm, ar⟩ := f
  obtain ⟨field, two, att, value⟩ := s
  simp only at hf ha
  subst hf ha
  cases field <;> cases two <;> cases att
  all_goals
    simp [FlagSet.parseOne, Supplied.render, Var.flagName, FlagSet.lookup, splitEquals, init,
      FlagSet.StringVar, CommandLine, String.data_append]

theorem Supplied.override_eq_set (g : Globals) (s : Supplied) :
    Supplied.override g s = g.set s.field s.value := by
  obtain ⟨field, two, att, value⟩ := s
  cases field <;> simp [Supplied.override, Globals.set]

/-- The `=` search returns either the two sides of the first `=` it finds or
the whole name. -/
theorem splitEquals_inv (name : List Char) (fuel i : Nat) :
    ((splitEquals name fuel i).2.1 = true ∧
      name = (splitEquals name fuel i).1 ++ '=' :: (splitEquals name fuel i).2.2) ∨
    ((splitEquals name fuel i).2.1 = false ∧ (splitEquals name fuel i).1 = name) := by
  induction fuel generalizing i with
  | zero => right; simp [splitEquals]
  | succ n ih =>
    unfold splitEquals
    split_ifs with h1 h2
    · left
      refine ⟨rfl, ?_⟩
      simp only
      rw [List.get?_eq_getElem?, List.getElem?_eq_getElem h1] at h2
      simp only [Option.some.injEq] at h2
      rw [← h2, ← List.drop_eq_getElem_cons h1, List.take_append_drop]
    · exact ih (i + 1)
    · right; simp

theorem render_data_eq (s : String) (two : Bool) (a b : List Char)
    (h : s.data = (if two then ['-', '-'] else ['-']) ++ a ++ '=' :: b) :
    s = (if two then "--" else "-") ++ String.mk a ++ "=" ++ String.mk b := by
  apply String.ext
  cases two <;> simp [String.data_append, h]

theorem render_data_eq_plain (s : String) (two : Bool) (a : List Char)
    (h : s.data = (if two then ['-', '-'] else ['-']) ++ a) :
    s = (if two then "--" else "-") ++ String.mk a := by
  apply String.ext
  cases two <;> simp [String.data_append, h]

theorem data_two_minuses (cs : List Char) (h0 : cs.get? 0 = some '-')
    (h1 : cs.get? 1 = some '-') :
    cs = (if true = true then ['-', '-'] else ['-']) ++ cs.drop 2 := by
  cases cs with
  | nil => simp at h0
  | cons a t =>
    cases t with
    | nil => simp at h1
    | cons b u =>
      simp at h0 h1
      simp [h0, h1]

theorem data_one_minus (cs : List Char) (h0 : cs.get? 0 = some '-') :
    cs = (if false = true then ['-', '-'] else ['-']) ++ cs.drop 1 := by
  cases cs with
  | nil => simp at h0
  | cons a t =>
    simp at h0
    simp [h0]

/-- An argument made of one or two minus signs and a name that `lookup` finds
among the flags of `init` is the first argument of a supplied flag. -/
theorem render_of_parts (s : String) (two : Bool) (name0 : List Char) (flag : Flag)
    (f : FlagSet) (hf : f.formal = init.1.formal)
    (hdata : s.data = (if two = true then ['-', '-'] else ['-']) ++ name0)
    (hl : f.lookup (String.mk (splitEquals name0 name0.length 1).1) = some flag) :
    ((splitEquals name0 name0.length 1).2.1 = true → ∀ rest : List String,
      s :: rest = Supplied.render
        ⟨flag.value, two, true, String.mk (splitEquals name0 name0.length 1).2.2⟩ ++ rest) ∧
    ((splitEquals name0 name0.length 1).2.1 = false → ∀ (v : String) (rest : List String),
      s :: v :: rest = Supplied.render ⟨flag.value, two, false, v⟩ ++ rest) := by
  have hname : Var.flagName flag.value = String.mk (splitEquals name0 name0.length 1).1 := by
    rcases lookup_init f _ flag hf hl with ⟨h1, h2⟩ | ⟨h1, h2⟩ | ⟨h1, h2⟩ | ⟨h1, h2⟩ <;>
      rw [h1, h2] <;> rfl
  constructor
  · intro ht rest
    rcases splitEquals_inv name0 name0.length 1 with ⟨-, hn⟩ | ⟨hfalse, -⟩
    · rw [hn] at hdata
      have := render_data_eq s two _ _ (by rw [List.append_assoc]; exact hdata)
      simp [Supplied.render, hname, this]
    · rw [ht] at hfalse
      cases hfalse
  · intro hfl v rest
    rcases splitEquals_inv name0 name0.length 1 with ⟨htrue, -⟩ | ⟨-, hn⟩
    · rw [hfl] at htrue
      cases htrue
    · have := render_data_eq_plain s two name0 hdata
      simp [Supplied.render, hname, this, hn]

/-- Whenever `parseOne` reports a flag, the arguments it consumed are one of
the four ways of supplying one of the four registered flags. -/
theorem parseOne_seen_inv (f : FlagSet) (g : Globals) (hf : f.formal = init.1.formal)
    (hs : (f.parseOne g).1.seen = true) :
    ∃ s : Supplied, f.args = s.render ++ (f.parseOne g).2.1.args := by
  obtain ⟨ps, ac, fm, ar⟩ := f
  simp only at hf
  subst hf
  rcases hpo : FlagSet.parseOne ⟨ps, ac, init.1.formal, ar⟩ g with ⟨⟨seen, err⟩, fa, ga⟩
  rw [hpo] at hs
  simp only at hs
  subst hs
  simp only
  unfold FlagSet.parseOne at hpo
  simp only at hpo
  repeat' split at hpo
  all_goals simp at hpo
  · rename_i _ s h3 h2 _ _ _ flag rest _ _ hsp hl
    obtain ⟨-, rfl, -⟩ := hpo
    simp only [not_or, not_not] at h3
    exact ⟨_, (render_of_parts s true _ flag _ rfl
      (data_two_minuses s.data h3.2 h2) hl).1 hsp rest⟩
  · rename_i _ s h3 h2 _ _ _ flag _ _ v rest hsp hl
    obtain ⟨-, rfl, -⟩ := hpo
    simp only [not_or, not_not] at h3
    exact ⟨_, (render_of_parts s true _ flag _ rfl
      (data_two_minuses s.data h3.2 h2) hl).2 hsp v rest⟩
  · rename_i _ s h3 h2 _ _ _ flag rest _ _ hsp hl
    obtain ⟨-, rfl, -⟩ := hpo
    simp only [not_or, not_not] at h3
    exact ⟨_, (render_of_parts s false _ flag _ rfl
      (data_one_minus s.data h3.2) hl).1 hsp rest⟩
  · rename_i _ s h3 h2 _ _ _ flag _ _ v rest hsp hl
    obtain ⟨-, rfl, -⟩ := hpo
    simp only [not_or, not_not] at h3
    exact ⟨_, (render_of_parts s false _ flag _ rfl
      (data_one_minus s.data h3.2) hl).2 hsp v rest⟩

/-- A call of `parseOne` that reports neither a flag nor an error leaves the
arguments as they are or drops a leading `--`. -/
theorem parseOne_stop (f : FlagSet) (g : Globals)
    (hs : (f.parseOne g).1 = ⟨false, none⟩) :
    f.args = (f.parseOne g).2.1.args ∨ f.args = "--" :: (f.parseOne g).2.1.args := by
  obtain ⟨ps, ac, fm, ar⟩ := f
  rcases hpo : FlagSet.parseOne ⟨ps, ac, fm, ar⟩ g with ⟨sn, fa, ga⟩
  rw [hpo] at hs
  simp only at hs
  subst hs
  simp only
  unfold FlagSet.parseOne at hpo
  simp only at hpo
  repeat' split at hpo
  all_goals simp at hpo
  all_goals try (obtain ⟨rfl, -⟩ := hpo)
  all_goals try simp
  · rename_i s _ h3 h2 h1
    simp only [not_or, not_not, not_lt] at h3
    have hd := data_two_minuses s.data h3.2 h2
    have hl : s.data.length = 2 := h1.2
    have hnil : s.data.drop 2 = [] := by
      apply List.eq_nil_of_length_eq_zero
      simp [hl]
    rw [hnil] at hd
    apply String.ext
    simpa using hd
  · rename_i h1
    exact absurd h1.1 (by decide)

/-- Parsing a run of supplied flags: whatever the state and whatever follows,
the loop reaches the arguments after the run with every supplied flag
overriding its own field, in order. -/
theorem parseLoop_render (fas : List Supplied) (tail : List String) (n : Nat)
    (f : FlagSet) (g : Globals) (hf : f.formal = init.1.formal)
    (ha : f.args = fas.flatMap Supplied.render ++ tail) :
    FlagSet.parseLoop (fas.length + n) f g =
      FlagSet.parseLoop n
        { f with
          args := tail
          actual := fas.foldl (fun a s => a.insert s.field.flagName) f.actual }
        (fas.foldl Supplied.override g) := by
  induction fas generalizing f g with
  | nil =>
    simp only [List.flatMap_nil, List.nil_append] at ha
    simp [← ha]
  | cons s fas ih =>
    have hlen : (s :: fas).length + n = (fas.length + n) + 1 := by
      simp only [List.length_cons]; omega
    have hpo := parseOne_render f g s (fas.flatMap Supplied.render ++ tail) hf
      (by simp [ha])
    rw [hlen, parseLoop_succ, hpo]
    simp only [if_true]
    rw [ih ⟨f.parsed, List.insert s.field.flagName f.actual, f.formal,
      fas.flatMap Supplied.render ++ tail⟩ (g.set s.field s.value) hf rfl]
    simp [Supplied.override_eq_set]

/-- Every successful parse loop is a run of supplied flags followed by the
arguments at which parsing stopped, and it leaves every variable as the
overrides of those flags, in order, leave it. -/
theorem parseLoop_inv (n : Nat) (f : FlagSet) (g : Globals) (f1 : FlagSet) (g1 : Globals)
    (hf : f.formal = init.1.formal)
    (h : FlagSet.parseLoop n f g = some (.ok (f1, g1))) :
    ∃ (fas : List Supplied) (tail : List String),
      f.args = fas.flatMap Supplied.render ++ tail ∧
      g1 = fas.foldl Supplied.override g ∧
      (tail = f1.args ∨ tail = "--" :: f1.args) := by
  induction n generalizing f g with
  | zero => simp [FlagSet.parseLoop] at h
  | succ m ih =>
    rw [parseLoop_succ] at h
    split at h
    · rename_i hseen
      obtain ⟨s, hs⟩ := parseOne_seen_inv f g hf hseen
      have hpo := parseOne_render f g s _ hf hs
      have hfm : (f.parseOne g).2.1.formal = init.1.formal := by
        rw [(parseOne_shape f g).1, hf]
      obtain ⟨fas, tail, h1, h2, h3⟩ := ih _ _ hfm h
      refine ⟨s :: fas, tail, ?_, ?_, h3⟩
      · rw [hs, h1]
        simp
      · rw [h2]
        have hg : (f.parseOne g).2.2 = g.set s.field s.value := by rw [hpo]
        rw [hg]
        simp [Supplied.override_eq_set]
    · rename_i hseen
      split at h
      · rename_i herr
        simp only [Option.some.injEq, Except.ok.injEq, Prod.mk.injEq] at h
        have hsn : (f.parseOne g).1 = ⟨false, none⟩ := by
          rcases hx : (f.parseOne g).1 with ⟨a, b⟩
          rw [hx] at hseen herr
          simp only at hseen herr
          simp only [Bool.not_eq_true] at hseen
          rw [hseen, herr]
        refine ⟨[], f.args, by simp, ?_, ?_⟩
        · rcases (parseOne_shape f g).2 with ⟨-, hg, -⟩ | ⟨ht, -⟩
          · rw [← h.2, hg]
            rfl
          · rw [hsn] at ht
            cases ht
        · rw [← h.1]
          exact parseOne_stop f g hsn
      · simp at h

theorem render_length (fas : List Supplied) :
    fas.length ≤ (fas.flatMap Supplied.render).length := by
  induction fas with
  | nil => simp
  | cons s fas ih =>
    have h1 : 1 ≤ (Supplied.render s).length := by
      obtain ⟨field, two, att, value⟩ := s
      cases att <;> simp [Supplied.render]
    simp only [List.flatMap_cons, List.length_append, List.length_cons]
    omega

/-- At an argument that does not begin with a minus sign, or at the end of the
arguments, `parseOne` reports no flag and no error and changes nothing. -/
theorem parseOne_nonflag (f : FlagSet) (g : Globals)
    (h : ∀ r, f.args.head? = some r → r.data.get? 0 ≠ some '-') :
    f.parseOne g = (⟨false, none⟩, f, g) := by
  obtain ⟨ps, ac, fm, ar⟩ := f
  cases ar with
  | nil => simp [FlagSet.parseOne]
  | cons r rest =>
    have hr := h r rfl
    simp only [FlagSet.parseOne]
    rw [if_pos (Or.inr hr)]

/-- The variables after `init`. -/
theorem init_vars : init.2 = ⟨"", "127.0.0.1", "22", ""⟩ := rfl

/-- Parsing, from the state left by `init`, a run of supplied flags followed by
arguments that do not begin with a minus sign. -/
theorem flagParse_render (fas : List Supplied) (tail : List String)
    (hstop : ∀ r, tail.head? = some r → r.data.get? 0 ≠ some '-') :
    ∃ q, Proc.start.flagParse (fas.flatMap Supplied.render ++ tail) = .ok q ∧
      q.vars = fas.foldl Supplied.override ⟨"", "127.0.0.1", "22", ""⟩ ∧
      q.flags.args = tail := by
  have hlen := render_length fas
  obtain ⟨n, hn⟩ : ∃ n, (fas.flatMap Supplied.render ++ tail).length + 1
      = fas.length + (n + 1) :=
    ⟨(fas.flatMap Supplied.render ++ tail).length - fas.length, by
      simp only [List.length_append]; omega⟩
  have hloop : Proc.start.flags.Parse Proc.start.vars (fas.flatMap Supplied.render ++ tail)
      = some (.ok (⟨true, fas.foldl (fun a s => a.insert s.field.flagName) [], init.1.formal,
          tail⟩, fas.foldl Supplied.override ⟨"", "127.0.0.1", "22", ""⟩)) := by
    unfold FlagSet.Parse
    rw [hn, parseLoop_render fas tail (n + 1)
      ⟨true, Proc.start.flags.actual, Proc.start.flags.formal,
        fas.flatMap Supplied.render ++ tail⟩ Proc.start.vars rfl rfl, parseLoop_succ,
      parseOne_nonflag _ _ hstop]
    rfl
  exact ⟨_, (flagParse_ok_iff _ _ _).2 ⟨_, _, hloop, rfl⟩, rfl, rfl⟩

/-! ## Claims -/

/-- C1: when `flag.Parse` returns with an empty `-user` value or an empty
`-pkey` value, `main` exits with status 2, its whole trace is one line on
standard output, "Must supply username" if the username is empty (whether or
not the key path is empty too) and "Must supply private key" otherwise; in
particular no `ReadFile` and no `Dial` is attempted. -/
theorem C1_missing_user_or_pkey (env : Env) (args : List String) (fuel : Nat) (p : Proc)
    (hp : Proc.start.flagParse args = .ok p)
    (h : p.vars.username = "" ∨ p.vars.pKeyFile = "") :
    (main env args fuel).status = .exited 2 ∧
    (main env args fuel).trace
      = [Event.stdout (if p.vars.username = "" then "Must supply username\n"
          else "Must supply private key\n")] ∧
    (∀ path, Event.ReadFile path ∉ (main env args fuel).trace) ∧
    (∀ network addr config, Event.Dial network addr config ∉ (main env args fuel).trace) := by
  obtain ⟨ht, -, -⟩ := flagParse_ok hp
  by_cases hu : p.vars.username = ""
  · simp [main, hp, hu, Proc.Println, Proc.emit, Proc.osExit, ht, fmtPrintln_one]
  · have hk : p.vars.pKeyFile = "" := h.resolve_left hu
    simp [main, hp, hu, hk, Proc.Println, Proc.emit, Proc.osExit, ht, fmtPrintln_one]

/-- C2: with non-empty `-user` and `-pkey`, if reading the key file fails, or
the read succeeds and parsing the bytes fails, `main` exits with status 2 and
its trace contains no `Dial`. -/
theorem C2_key_failure_no_dial (env : Env) (args : List String) (fuel : Nat) (p : Proc)
    (hp : Proc.start.flagParse args = .ok p)
    (hu : p.vars.username ≠ "") (hk : p.vars.pKeyFile ≠ "")
    (h : (∃ err, env.ReadFile p.vars.pKeyFile = .error err) ∨
      (∃ pKey err, env.ReadFile p.vars.pKeyFile = .ok pKey ∧
        env.ParsePrivateKey pKey = .error err)) :
    (main env args fuel).status = .exited 2 ∧
    (∀ network addr config, Event.Dial network addr config ∉ (main env args fuel).trace) := by
  obtain ⟨ht, -, -⟩ := flagParse_ok hp
  rcases h with ⟨err, h1⟩ | ⟨pKey, err, h1, h2⟩
  · simp [main, hp, hu, hk, h1, Proc.Println, Proc.emit, Proc.osExit, ht]
  · simp [main, hp, hu, hk, h1, h2, Proc.Println, Proc.emit, Proc.osExit, ht]

/-- C3: when validation, key read, key parse, dial, session creation, stdin
pipe, pty request and shell start all succeed, the trace of `main` is exactly:
the key read and parse, one `Dial`, one `NewSession`, one `StdinPipe`, one
`RequestPty` with terminal "vt220", height 40, width 80 and modes
`[(ECHO, 0)]`, one `Shell`, in that order, followed only by the copies from
standard input. -/
theorem C3_success_sequence (env : Env) (args : List String) (fuel : Nat) (p : Proc)
    (pKey : Bytes) (signer : Signer) (sshConn : Client) (sid : Nat) (input : WriteCloser)
    (hp : Proc.start.flagParse args = .ok p)
    (hu : p.vars.username ≠ "") (hk : p.vars.pKeyFile ≠ "")
    (hread : env.ReadFile p.vars.pKeyFile = .ok pKey)
    (hkey : env.ParsePrivateKey pKey = .ok signer)
    (hdial : env.Dial "tcp" (JoinHostPort p.vars.serverIP p.vars.serverPort)
      ⟨p.vars.username, [.PublicKeys [signer]], .InsecureIgnoreHostKey⟩ = .ok sshConn)
    (hsess : env.NewSession sshConn = .ok sid)
    (hpipe : env.StdinPipe ⟨sid, some .Stdout, some .Stderr⟩ = .ok input)
    (hpty : env.RequestPty ⟨sid, some .Stdout, some .Stderr⟩ "vt220" 40 80 [(ECHO, 0)] = none)
    (hshell : env.Shell ⟨sid, some .Stdout, some .Stderr⟩ = none) :
    (main env args fuel).trace =
      [ Event.ReadFile p.vars.pKeyFile,
        Event.ParsePrivateKey pKey,
        Event.Dial "tcp" (JoinHostPort p.vars.serverIP p.vars.serverPort)
          ⟨p.vars.username, [.PublicKeys [signer]], .InsecureIgnoreHostKey⟩,
        Event.NewSession sshConn,
        Event.StdinPipe ⟨sid, some .Stdout, some .Stderr⟩,
        Event.RequestPty ⟨sid, some .Stdout, some .Stderr⟩ "vt220" 40 80 [(ECHO, 0)],
        Event.Shell ⟨sid, some .Stdout, some .Stderr⟩ ]
      ++ List.replicate fuel (Event.Copy input .Stdin) := by
  obtain ⟨ht, -, -⟩ := flagParse_ok hp
  simp [main, hp, hu, hk, hread, hkey, hdial, hsess, hpipe, hpty, hshell, copyLoop_trace,
    Proc.emit, Proc.defer, ht]

/-- C4: when the key loads and parses but the dial fails with error `err`,
`main` exits with status 2; the address handed to `Dial` is
`JoinHostPort serverIP serverPort`, and the output is first the line
"Failed to connect to " followed by that same address, then the error. -/
theorem C4_dial_failure_names_address (env : Env) (args : List String) (fuel : Nat)
    (p : Proc) (pKey : Bytes) (signer : Signer) (err : GoError)
    (hp : Proc.start.flagParse args = .ok p)
    (hu : p.vars.username ≠ "") (hk : p.vars.pKeyFile ≠ "")
    (hread : env.ReadFile p.vars.pKeyFile = .ok pKey)
    (hkey : env.ParsePrivateKey pKey = .ok signer)
    (hdial : env.Dial "tcp" (JoinHostPort p.vars.serverIP p.vars.serverPort)
      ⟨p.vars.username, [.PublicKeys [signer]], .InsecureIgnoreHostKey⟩ = .error err) :
    (main env args fuel).status = .exited 2 ∧
    (main env args fuel).trace =
      [ Event.ReadFile p.vars.pKeyFile,
        Event.ParsePrivateKey pKey,
        Event.Dial "tcp" (JoinHostPort p.vars.serverIP p.vars.serverPort)
          ⟨p.vars.username, [.PublicKeys [signer]], .InsecureIgnoreHostKey⟩,
        Event.stdout ("Failed to connect to "
          ++ JoinHostPort p.vars.serverIP p.vars.serverPort ++ "\n"),
        Event.stdout (err ++ "\n") ] := by
  obtain ⟨ht, -, -⟩ := flagParse_ok hp
  simp [main, hp, hu, hk, hread, hkey, hdial, Proc.Println, Proc.emit, Proc.osExit, ht,
    fmtPrintln_one]

/-- C5: every failing step ends the run at once with status 2 after one
diagnostic.  For each of the nine steps (empty username, empty key path, key
read, key parse, dial, session creation, stdin pipe, pty request, shell start)
the trace is given in full: the steps before it once each, the failing step
once, its diagnostic, and nothing after.  Every line written to standard
output is non-empty, and after a successful `flag.Parse` the process is either
still running or has exited with status 2. -/
theorem C5_failure_is_terminal (env : Env) (args : List String) (fuel : Nat) (p : Proc)
    (hp : Proc.start.flagParse args = .ok p) :
    ((main env args fuel).status = .running ∨ (main env args fuel).status = .exited 2) ∧
    (∀ s, Event.stdout s ∈ (main env args fuel).trace → s ≠ "") ∧
    (p.vars.username = "" →
      (main env args fuel).status = .exited 2 ∧
      (main env args fuel).trace = [Event.stdout "Must supply username\n"]) ∧
    (p.vars.username ≠ "" → p.vars.pKeyFile = "" →
      (main env args fuel).status = .exited 2 ∧
      (main env args fuel).trace = [Event.stdout "Must supply private key\n"]) ∧
    (p.vars.username ≠ "" → p.vars.pKeyFile ≠ "" →
      (∀ err, env.ReadFile p.vars.pKeyFile = .error err →
        (main env args fuel).status = .exited 2 ∧
        (main env args fuel).trace =
          [ Event.ReadFile p.vars.pKeyFile,
            Event.stdout ("Failed to read private key from file " ++ err ++ "\n") ]) ∧
      (∀ pKey, env.ReadFile p.vars.pKeyFile = .ok pKey →
        (∀ err, env.ParsePrivateKey pKey = .error err →
          (main env args fuel).status = .exited 2 ∧
          (main env args fuel).trace =
            [ Event.ReadFile p.vars.pKeyFile, Event.ParsePrivateKey pKey,
              Event.stdout ("Failed to parse private key " ++ err ++ "\n") ]) ∧
        (∀ signer, env.ParsePrivateKey pKey = .ok signer →
          (∀ err, env.Dial "tcp" (JoinHostPort p.vars.serverIP p.vars.serverPort)
              ⟨p.vars.username, [.PublicKeys [signer]], .InsecureIgnoreHostKey⟩ = .error err →
            (main env args fuel).status = .exited 2 ∧
            (main env args fuel).trace =
              [ Event.ReadFile p.vars.pKeyFile, Event.ParsePrivateKey pKey,
                Event.Dial "tcp" (JoinHostPort p.vars.serverIP p.vars.serverPort)
                  ⟨p.vars.username, [.PublicKeys [signer]], .InsecureIgnoreHostKey⟩,
                Event.stdout ("Failed to connect to "
                  ++ JoinHostPort p.vars.serverIP p.vars.serverPort ++ "\n"),
                Event.stdout (err ++ "\n") ]) ∧
          (∀ sshConn, env.Dial "tcp" (JoinHostPort p.vars.serverIP p.vars.serverPort)
              ⟨p.vars.username, [.PublicKeys [signer]], .InsecureIgnoreHostKey⟩ = .ok sshConn →
            (∀ err, env.NewSession sshConn = .error err →
              (main env args fuel).status = .exited 2 ∧
              (main env args fuel).trace =
                [ Event.ReadFile p.vars.pKeyFile, Event.ParsePrivateKey pKey,
                  Event.Dial "tcp" (JoinHostPort p.vars.serverIP p.vars.serverPort)
                    ⟨p.vars.username, [.PublicKeys [signer]], .InsecureIgnoreHostKey⟩,
                  Event.NewSession sshConn,
                  Event.stdout ("Cannot create SSH session to "
                    ++ JoinHostPort p.vars.serverIP p.vars.serverPort ++ "\n"),
                  Event.stdout (err ++ "\n") ]) ∧
            (∀ sid, env.NewSession sshConn = .ok sid →
              (∀ err, env.StdinPipe ⟨sid, some .Stdout, some .Stderr⟩ = .error err →
                (main env args fuel).status = .exited 2 ∧
                (main env args fuel).trace =
                  [ Event.ReadFile p.vars.pKeyFile, Event.ParsePrivateKey pKey,
                    Event.Dial "tcp" (JoinHostPort p.vars.serverIP p.vars.serverPort)
                      ⟨p.vars.username, [.PublicKeys [signer]], .InsecureIgnoreHostKey⟩,
                    Event.NewSession sshConn,
                    Event.StdinPipe ⟨sid, some .Stdout, some .Stderr⟩,
                    Event.stdout ("Error redirecting session input " ++ err ++ "\n") ]) ∧
              (∀ input, env.StdinPipe ⟨sid, some .Stdout, some .Stderr⟩ = .ok input →
                (∀ err, env.RequestPty ⟨sid, some .Stdout, some .Stderr⟩ "vt220" 40 80
                    [(ECHO, 0)] = some err →
                  (main env args fuel).status = .exited 2 ∧
                  (main env args fuel).trace =
                    [ Event.ReadFile p.vars.pKeyFile, Event.ParsePrivateKey pKey,
                      Event.Dial "tcp" (JoinHostPort p.vars.serverIP p.vars.serverPort)
                        ⟨p.vars.username, [.PublicKeys [signer]], .InsecureIgnoreHostKey⟩,
                      Event.NewSession sshConn,
                      Event.StdinPipe ⟨sid, some .Stdout, some .Stderr⟩,
                      Event.RequestPty ⟨sid, some .Stdout, some .Stderr⟩ "vt220" 40 80
                        [(ECHO, 0)],
                      Event.stdout ("RequestPty failed " ++ err ++ "\n") ]) ∧
                (env.RequestPty ⟨sid, some .Stdout, some .Stderr⟩ "vt220" 40 80
                    [(ECHO, 0)] = none →
                  ∀ err, env.Shell ⟨sid, some .Stdout, some .Stderr⟩ = some err →
                  (main env args fuel).status = .exited 2 ∧
                  (main env args fuel).trace =
                    [ Event.ReadFile p.vars.pKeyFile, Event.ParsePrivateKey pKey,
                      Event.Dial "tcp" (JoinHostPort p.vars.serverIP p.vars.serverPort)
                        ⟨p.vars.username, [.PublicKeys [signer]], .InsecureIgnoreHostKey⟩,
                      Event.NewSession sshConn,
                      Event.StdinPipe ⟨sid, some .Stdout, some .Stderr⟩,
                      Event.RequestPty ⟨sid, some .Stdout, some .Stderr⟩ "vt220" 40 80
                        [(ECHO, 0)],
                      Event.Shell ⟨sid, some .Stdout, some .Stderr⟩,
                      Event.stdout ("shell failed " ++ err ++ "\n") ]))))))) := by
  obtain ⟨ht, -, hs⟩ := flagParse_ok hp
  refine ⟨?_, ?_, ?_, ?_, ?_⟩
  · simp only [main, hp]
    repeat' split
    all_goals simp [Proc.osExit, copyLoop_status, Proc.emit, Proc.defer, hs]
  · simp only [main, hp]
    repeat' split
    all_goals
      simp [Proc.osExit, copyLoop_trace, Proc.emit, Proc.defer, Proc.Println, ht,
        fmtPrintln_one, fmtPrintln_two, append_newline_ne_empty]
  · intro hu
    simp [main, hp, hu, Proc.Println, Proc.emit, Proc.osExit, ht, fmtPrintln_one]
  · intro hu hk
    simp [main, hp, hu, hk, Proc.Println, Proc.emit, Proc.osExit, ht, fmtPrintln_one]
  · intro hu hk
    refine ⟨?_, ?_⟩
    · intro err h1
      simp [main, hp, hu, hk, h1, Proc.Println, Proc.emit, Proc.osExit, ht, fmtPrintln_two]
    intro pKey h1
    refine ⟨?_, ?_⟩
    · intro err h2
      simp [main, hp, hu, hk, h1, h2, Proc.Println, Proc.emit, Proc.osExit, ht, fmtPrintln_two]
    intro signer h2
    refine ⟨?_, ?_⟩
    · intro err h3
      simp [main, hp, hu, hk, h1, h2, h3, Proc.Println, Proc.emit, Proc.osExit, ht,
        fmtPrintln_one]
    intro sshConn h3
    refine ⟨?_, ?_⟩
    · intro err h4
      simp [main, hp, hu, hk, h1, h2, h3, h4, Proc.Println, Proc.emit, Proc.osExit, ht,
        fmtPrintln_one]
    intro sid h4
    refine ⟨?_, ?_⟩
    · intro err h5
      simp [main, hp, hu, hk, h1, h2, h3, h4, h5, Proc.Println, Proc.emit, Proc.osExit,
        Proc.defer, ht, fmtPrintln_two]
    intro input h5
    refine ⟨?_, ?_⟩
    · intro err h6
      simp [main, hp, hu, hk, h1, h2, h3, h4, h5, h6, Proc.Println, Proc.emit, Proc.osExit,
        Proc.defer, ht, fmtPrintln_two]
    · intro h6 err h7
      simp [main, hp, hu, hk, h1, h2, h3, h4, h5, h6, h7, Proc.Println, Proc.emit,
        Proc.osExit, Proc.defer, ht, fmtPrintln_two]

/-- C6: whenever a `Dial` occurs in the trace of `main`, its configuration has
`User` equal to the parsed `-user` value, an `Auth` list of exactly one
method, the public-key method over the signer parsed from the bytes read from
the key file, and a host-key callback that returns a nil error for every
hostname, remote address and host key. -/
theorem C6_dial_config (env : Env) (args : List String) (fuel : Nat)
    (network addr : String) (config : ClientConfig)
    (h : Event.Dial network addr config ∈ (main env args fuel).trace) :
    ∃ p pKey signer,
      Proc.start.flagParse args = .ok p ∧
      env.ReadFile p.vars.pKeyFile = .ok pKey ∧
      env.ParsePrivateKey pKey = .ok signer ∧
      config.User = p.vars.username ∧
      config.Auth = [AuthMethod.PublicKeys [signer]] ∧
      config.Auth.length = 1 ∧
      (∀ hostname remote key, config.HostKeyCallback.call hostname remote key = none) := by
  cases hp : Proc.start.flagParse args with
  | error q =>
    exfalso
    simp only [main, hp] at h
    unfold Proc.flagParse at hp
    split at hp <;> simp at hp <;> subst hp <;>
      simp [Proc.start, Proc.emit, Proc.osExit] at h
  | ok p =>
    obtain ⟨ht, -, -⟩ := flagParse_ok hp
    refine ⟨p, ?_⟩
    simp only [main, hp] at h
    repeat' split at h
    all_goals
      simp [Proc.osExit, copyLoop_trace, Proc.emit, Proc.defer, Proc.Println, ht] at h
    all_goals
      obtain ⟨-, -, rfl⟩ := h
      simp_all [HostKeyCallback.call, Proc.emit]

/-- C8 (evaluation at the failing inputs): with `-user alice -pkey k`, a key
that loads and parses, a dial, a session creation and a stdin pipe that
succeed, (a) when the remote end refuses the pty request and (b) when the pty
is granted and the remote end refuses the shell, `main` exits with status 2
with the deferred `session.Close()` still pending and no `Close` performed;
the last action of the run is the diagnostic.  Running the pending deferred
calls is what would have closed the session. -/
theorem C8_exit_skips_deferred_close :
    ((main { sampleEnv with RequestPty := fun _ _ _ _ _ => some "ssh: pty-req failed" }
        sampleArgs 0).status = .exited 2 ∧
      (main { sampleEnv with RequestPty := fun _ _ _ _ _ => some "ssh: pty-req failed" }
        sampleArgs 0).deferred = [Deferred.sessionClose 1] ∧
      (main { sampleEnv with RequestPty := fun _ _ _ _ _ => some "ssh: pty-req failed" }
        sampleArgs 0).trace =
        [ Event.ReadFile "k", Event.ParsePrivateKey [45, 45, 45],
          Event.Dial "tcp" "127.0.0.1:22" sampleConfig,
          Event.NewSession ⟨7⟩, Event.StdinPipe sampleSession,
          Event.RequestPty sampleSession "vt220" 40 80 [(53, 0)],
          Event.stdout "RequestPty failed ssh: pty-req failed\n" ] ∧
      (∀ sid, Event.Close sid ∉
        (main { sampleEnv with RequestPty := fun _ _ _ _ _ => some "ssh: pty-req failed" }
          sampleArgs 0).trace) ∧
      Event.Close 1 ∈
        (main { sampleEnv with RequestPty := fun _ _ _ _ _ => some "ssh: pty-req failed" }
          sampleArgs 0).runDeferred.trace) ∧
    ((main { sampleEnv with Shell := fun _ => some "ssh: could not start shell" }
        sampleArgs 0).status = .exited 2 ∧
      (main { sampleEnv with Shell := fun _ => some "ssh: could not start shell" }
        sampleArgs 0).deferred = [Deferred.sessionClose 1] ∧
      (main { sampleEnv with Shell := fun _ => some "ssh: could not start shell" }
        sampleArgs 0).trace =
        [ Event.ReadFile "k", Event.ParsePrivateKey [45, 45, 45],
          Event.Dial "tcp" "127.0.0.1:22" sampleConfig,
          Event.NewSession ⟨7⟩, Event.StdinPipe sampleSession,
          Event.RequestPty sampleSession "vt220" 40 80 [(53, 0)],
          Event.Shell sampleSession,
          Event.stdout "shell failed ssh: could not start shell\n" ] ∧
      (∀ sid, Event.Close sid ∉
        (main { sampleEnv with Shell := fun _ => some "ssh: could not start shell" }
          sampleArgs 0).trace) ∧
      Event.Close 1 ∈
        (main { sampleEnv with Shell := fun _ => some "ssh: could not start shell" }
          sampleArgs 0).runDeferred.trace) := by
  have h1 : (main { sampleEnv with RequestPty := fun _ _ _ _ _ => some "ssh: pty-req failed" }
        sampleArgs 0).trace =
        [ Event.ReadFile "k", Event.ParsePrivateKey [45, 45, 45],
          Event.Dial "tcp" "127.0.0.1:22" sampleConfig,
          Event.NewSession ⟨7⟩, Event.StdinPipe sampleSession,
          Event.RequestPty sampleSession "vt220" 40 80 [(53, 0)],
          Event.stdout "RequestPty failed ssh: pty-req failed\n" ] := by decide
  have h2 : (main { sampleEnv with Shell := fun _ => some "ssh: could not start shell" }
        sampleArgs 0).trace =
        [ Event.ReadFile "k", Event.ParsePrivateKey [45, 45, 45],
          Event.Dial "tcp" "127.0.0.1:22" sampleConfig,
          Event.NewSession ⟨7⟩, Event.StdinPipe sampleSession,
          Event.RequestPty sampleSession "vt220" 40 80 [(53, 0)],
          Event.Shell sampleSession,
          Event.stdout "shell failed ssh: could not start shell\n" ] := by decide
  refine ⟨⟨by decide, by decide, h1, ?_, by decide⟩, ⟨by decide, by decide, h2, ?_, by decide⟩⟩
  · intro sid
    rw [h1]
    simp
  · intro sid
    rw [h2]
    simp

/-- C10: once the shell start has succeeded, for every number of completed
copies the process is still running (it has not exited with any status), one
more unrolling of the loop adds exactly one further copy from standard input
to the session input, and the run is the same whatever results the copies
return. -/
theorem C10_copy_loop_never_exits (env : Env) (args : List String) (p : Proc)
    (pKey : Bytes) (signer : Signer) (sshConn : Client) (sid : Nat) (input : WriteCloser)
    (hp : Proc.start.flagParse args = .ok p)
    (hu : p.vars.username ≠ "") (hk : p.vars.pKeyFile ≠ "")
    (hread : env.ReadFile p.vars.pKeyFile = .ok pKey)
    (hkey : env.ParsePrivateKey pKey = .ok signer)
    (hdial : env.Dial "tcp" (JoinHostPort p.vars.serverIP p.vars.serverPort)
      ⟨p.vars.username, [.PublicKeys [signer]], .InsecureIgnoreHostKey⟩ = .ok sshConn)
    (hsess : env.NewSession sshConn = .ok sid)
    (hpipe : env.StdinPipe ⟨sid, some .Stdout, some .Stderr⟩ = .ok input)
    (hpty : env.RequestPty ⟨sid, some .Stdout, some .Stderr⟩ "vt220" 40 80 [(ECHO, 0)] = none)
    (hshell : env.Shell ⟨sid, some .Stdout, some .Stderr⟩ = none) :
    ∀ fuel : Nat,
      (main env args fuel).status = .running ∧
      (∀ code, (main env args fuel).status ≠ .exited code) ∧
      (main env args (fuel + 1)).trace
        = (main env args fuel).trace ++ [Event.Copy input .Stdin] ∧
      (main env args fuel).trace.count (Event.Copy input .Stdin) = fuel ∧
      (∀ results : Nat → Int × Option GoError,
        main { env with Copy := results } args fuel = main env args fuel) := by
  intro fuel
  obtain ⟨ht, -, hs⟩ := flagParse_ok hp
  have hst : (main env args fuel).status = .running := by
    simp [main, hp, hu, hk, hread, hkey, hdial, hsess, hpipe, hpty, hshell, copyLoop_status,
      Proc.emit, Proc.defer, hs]
  have htr : ∀ n, (main env args n).trace =
      [ Event.ReadFile p.vars.pKeyFile,
        Event.ParsePrivateKey pKey,
        Event.Dial "tcp" (JoinHostPort p.vars.serverIP p.vars.serverPort)
          ⟨p.vars.username, [.PublicKeys [signer]], .InsecureIgnoreHostKey⟩,
        Event.NewSession sshConn,
        Event.StdinPipe ⟨sid, some .Stdout, some .Stderr⟩,
        Event.RequestPty ⟨sid, some .Stdout, some .Stderr⟩ "vt220" 40 80 [(ECHO, 0)],
        Event.Shell ⟨sid, some .Stdout, some .Stderr⟩ ]
      ++ List.replicate n (Event.Copy input .Stdin) := by
    intro n
    simp [main, hp, hu, hk, hread, hkey, hdial, hsess, hpipe, hpty, hshell, copyLoop_trace,
      Proc.emit, Proc.defer, ht]
  refine ⟨hst, ?_, ?_, ?_, ?_⟩
  · intro code
    simp [hst]
  · rw [htr, htr, List.replicate_succ', List.append_assoc]
  · rw [htr]
    simp [List.count_cons, List.count_replicate]
  · intro results
    have hcl : ∀ n i q, copyLoop { env with Copy := results } input n i q
        = copyLoop env input n i q := by
      intro n
      induction n with
      | zero => intro i q; rfl
      | succ m ih => intro i q; simp [copyLoop, ih]
    simp [main, hp, hu, hk, hread, hkey, hdial, hsess, hpipe, hpty, hshell, hcl,
      Proc.emit, Proc.defer]

/-- C7: after a successful `flag.Parse`, a variable whose flag was not set
holds its default: host "127.0.0.1", port "22", username "" and key path "".
Hence a run that sets neither `-ip` nor `-port`, with non-empty user and key
path and a key that loads and parses, dials "127.0.0.1:22".  A supplied flag
overrides only its own field and leaves the other three unchanged, for every
argument list:
(a) `stringValue.Set` writes the pointed-to variable and no other;
(b) an argument list holding a single flag yields the defaults with that one
field replaced;
(c) every list of supplied flags, each written `-name value`, `--name value`,
`-name=value` or `--name=value`, followed by arguments that do not begin with a
minus sign, parses, and the variables are the defaults overridden by the
supplied flags in order, each override touching its own field only;
(d) conversely every argument list that parses is such a run of supplied flags
followed by the arguments at which parsing stopped (after a dropped `--`, if
any), and the parsed variables are the defaults overridden by exactly those
flags in order. -/
theorem C7_defaults_and_overrides (args : List String) (p : Proc)
    (hp : Proc.start.flagParse args = .ok p) :
    ("ip" ∉ p.flags.actual → p.vars.serverIP = "127.0.0.1") ∧
    ("port" ∉ p.flags.actual → p.vars.serverPort = "22") ∧
    ("user" ∉ p.flags.actual → p.vars.username = "") ∧
    ("pkey" ∉ p.flags.actual → p.vars.pKeyFile = "") ∧
    (∀ (env : Env) (fuel : Nat) (pKey : Bytes) (signer : Signer),
      "ip" ∉ p.flags.actual → "port" ∉ p.flags.actual →
      p.vars.username ≠ "" → p.vars.pKeyFile ≠ "" →
      env.ReadFile p.vars.pKeyFile = .ok pKey → env.ParsePrivateKey pKey = .ok signer →
      (main env args fuel).trace.take 3 =
        [ Event.ReadFile p.vars.pKeyFile, Event.ParsePrivateKey pKey,
          Event.Dial "tcp" "127.0.0.1:22"
            ⟨p.vars.username, [.PublicKeys [signer]], .InsecureIgnoreHostKey⟩ ]) ∧
    (∀ (g : Globals) (v : Var) (val : String),
      (g.set v val).get v = val ∧ ∀ w, w ≠ v → (g.set v val).get w = g.get w) ∧
    (∀ val : String,
      (∃ q, Proc.start.flagParse ["-ip", val] = .ok q ∧ q.vars = ⟨"", val, "22", ""⟩) ∧
      (∃ q, Proc.start.flagParse ["-port", val] = .ok q ∧ q.vars = ⟨"", "127.0.0.1", val, ""⟩) ∧
      (∃ q, Proc.start.flagParse ["-user", val] = .ok q ∧
        q.vars = ⟨val, "127.0.0.1", "22", ""⟩) ∧
      (∃ q, Proc.start.flagParse ["-pkey", val] = .ok q ∧
        q.vars = ⟨"", "127.0.0.1", "22", val⟩)) ∧
    (∀ (fas : List Supplied) (tail : List String),
      (∀ r, tail.head? = some r → r.data.get? 0 ≠ some '-') →
      ∃ q, Proc.start.flagParse (fas.flatMap Supplied.render ++ tail) = .ok q ∧
        q.vars = fas.foldl Supplied.override ⟨"", "127.0.0.1", "22", ""⟩ ∧
        q.flags.args = tail) ∧
    (∃ (fas : List Supplied) (tail : List String),
      args = fas.flatMap Supplied.render ++ tail ∧
      p.vars = fas.foldl Supplied.override ⟨"", "127.0.0.1", "22", ""⟩ ∧
      (tail = p.flags.args ∨ tail = "--" :: p.flags.args)) := by
  obtain ⟨ht, -, -⟩ := flagParse_ok hp
  obtain ⟨f, g, hparse, rfl⟩ := (flagParse_ok_iff _ _ _).1 hp
  have hinit : DefaultsKept { init.1 with parsed := true, args := args } init.2 := by
    refine ⟨rfl, ?_, ?_, ?_, ?_⟩ <;> intro _ <;> rfl
  obtain ⟨-, h1, h2, h3, h4⟩ := parseLoop_defaultsKept _ _ _ f g hinit hparse
  have hparse2 : FlagSet.parseLoop (args.length + 1)
      { init.1 with parsed := true, args := args } init.2 = some (.ok (f, g)) := hparse
  obtain ⟨fas, tail, hd1, hd2, hd3⟩ :=
    parseLoop_inv _ ⟨true, init.1.actual, init.1.formal, args⟩ init.2 f g rfl hparse2
  refine ⟨h2, h1, h3, h4, ?_, ?_, ?_, flagParse_render, ⟨fas, tail, hd1, hd2, hd3⟩⟩
  · intro env fuel pKey signer hip hport hu hk hread hkey
    have e1 : g.serverIP = "127.0.0.1" := h2 hip
    have e2 : g.serverPort = "22" := h1 hport
    have hj : JoinHostPort "127.0.0.1" "22" = "127.0.0.1:22" := by decide
    simp only [main, hp]
    simp only at hu hk hread ht
    simp only [hu, hk, if_false, Proc.emit, hread, hkey, e1, e2, hj]
    repeat' split
    all_goals
      simp [Proc.osExit, copyLoop_trace, Proc.emit, Proc.defer, Proc.Println, ht]
  · intro g v val
    exact ⟨Globals.get_set_same g v val, fun w hw => Globals.get_set_ne g v w val hw⟩
  · intro val
    exact ⟨⟨_, rfl, rfl⟩, ⟨_, rfl, rfl⟩, ⟨_, rfl, rfl⟩, ⟨_, rfl, rfl⟩⟩

/-- C9: parsing is idempotent.  If `flag.Parse` succeeds on an argument list,
parsing the same list again on top of the state the first parse left succeeds
too and leaves the four variables (username, host, port, key path) and the
remaining arguments as they were after the first parse.  The parse reads only
the argument list and the registered flags. -/
theorem C9_parse_idempotent (args : List String) (p : Proc)
    (hp : Proc.start.flagParse args = .ok p) :
    ∃ q, p.flagParse args = .ok q ∧ q.vars = p.vars ∧ q.flags.args = p.flags.args := by
  obtain ⟨f, g, hparse, rfl⟩ := (flagParse_ok_iff _ _ _).1 hp
  have hparse : FlagSet.parseLoop (args.length + 1)
      { init.1 with parsed := true, args := args } init.2 = some (.ok (f, g)) := hparse
  have hfm : f.formal = init.1.formal := by
    have := parseLoop_formal _ _ _ f g hparse
    exact this
  obtain ⟨f3, g3, h3, ha3, hv3⟩ :=
    parseLoop_rel _ { init.1 with parsed := true, args := args }
      { f with parsed := true, args := args } init.2 g hfm rfl f g hparse
  refine ⟨{ Proc.start with flags := f3, vars := g3 }, ?_, ?_, ha3⟩
  · rw [flagParse_ok_iff]
    exact ⟨f3, g3, h3, rfl⟩
  · apply Globals.ext_get
    intro v
    rcases hv3 v with h0 | ⟨h1, h2⟩
    · exact h0
    · exact h2

/-! ## The claims at concrete inputs -/

/-- C1 at the arguments `-pkey k`: no username, so the run is the one line "Must supply username" and exit status 2. -/
theorem C1_missing_user_or_pkey_witness :
    Proc.start.flagParse ["-pkey", "k"] = .ok noUserProc ∧
    (noUserProc.vars.username = "" ∨ noUserProc.vars.pKeyFile = "") ∧
    (main sampleEnv ["-pkey", "k"] 3).status = .exited 2 ∧
    (main sampleEnv ["-pkey", "k"] 3).trace = [Event.stdout "Must supply username\n"] :=
  ⟨rfl, Or.inl rfl,
    (C1_missing_user_or_pkey sampleEnv ["-pkey", "k"] 3 noUserProc rfl (Or.inl rfl)).1,
    (C1_missing_user_or_pkey sampleEnv ["-pkey", "k"] 3 noUserProc rfl (Or.inl rfl)).2.1⟩

/-- C2 at `-user alice -pkey k` with a key file that cannot be read. -/
theorem C2_key_failure_no_dial_witness :
    (main { sampleEnv with ReadFile := fun _ => .error "open k: no such file or directory" }
      sampleArgs 3).status = .exited 2 ∧
    (∀ network addr config, Event.Dial network addr config ∉
      (main { sampleEnv with ReadFile := fun _ => .error "open k: no such file or directory" }
        sampleArgs 3).trace) :=
  C2_key_failure_no_dial
    { sampleEnv with ReadFile := fun _ => .error "open k: no such file or directory" }
    sampleArgs 3 sampleProc rfl (by decide) (by decide)
    (Or.inl ⟨"open k: no such file or directory", rfl⟩)

/-- C3 at `-user alice -pkey k` in the all-success environment, two loop iterations. -/
theorem C3_success_sequence_witness :
    (main sampleEnv sampleArgs 2).trace =
      [ Event.ReadFile "k", Event.ParsePrivateKey [45, 45, 45],
        Event.Dial "tcp" "127.0.0.1:22" sampleConfig,
        Event.NewSession ⟨7⟩, Event.StdinPipe sampleSession,
        Event.RequestPty sampleSession "vt220" 40 80 [(53, 0)],
        Event.Shell sampleSession,
        Event.Copy ⟨9⟩ .Stdin, Event.Copy ⟨9⟩ .Stdin ] :=
  C3_success_sequence sampleEnv sampleArgs 2 sampleProc [45, 45, 45] ⟨[45, 45, 45]⟩ ⟨7⟩ 1 ⟨9⟩
    rfl (by decide) (by decide) rfl rfl rfl rfl rfl rfl rfl

/-- C4 at `-ip ::1 -port 2222` with a refused connection: the address dialled and printed is `[::1]:2222`. -/
theorem C4_dial_failure_names_address_witness :
    (main { sampleEnv with Dial := fun _ _ _ => .error "connection refused" }
      ["-user", "alice", "-pkey", "k", "-ip", "::1", "-port", "2222"] 3).status = .exited 2 ∧
    (main { sampleEnv with Dial := fun _ _ _ => .error "connection refused" }
      ["-user", "alice", "-pkey", "k", "-ip", "::1", "-port", "2222"] 3).trace =
      [ Event.ReadFile "k", Event.ParsePrivateKey [45, 45, 45],
        Event.Dial "tcp" "[::1]:2222" sampleConfig,
        Event.stdout "Failed to connect to [::1]:2222\n",
        Event.stdout "connection refused\n" ] :=
  C4_dial_failure_names_address
    { sampleEnv with Dial := fun _ _ _ => .error "connection refused" }
    ["-user", "alice", "-pkey", "k", "-ip", "::1", "-port", "2222"] 3
    ⟨⟨"alice", "::1", "2222", "k"⟩,
      ⟨true, ["port", "ip", "pkey", "user"], init.1.formal, []⟩, [], [], .running⟩
    [45, 45, 45] ⟨[45, 45, 45]⟩ "connection refused"
    rfl (by decide) (by decide) rfl rfl rfl

/-- C5 at `-user alice -pkey k` with a refused pty request. -/
theorem C5_failure_is_terminal_witness :
    (main { sampleEnv with RequestPty := fun _ _ _ _ _ => some "ssh: pty-req failed" }
      sampleArgs 3).status = .exited 2 ∧
    (main { sampleEnv with RequestPty := fun _ _ _ _ _ => some "ssh: pty-req failed" }
      sampleArgs 3).trace =
      [ Event.ReadFile "k", Event.ParsePrivateKey [45, 45, 45],
        Event.Dial "tcp" "127.0.0.1:22" sampleConfig,
        Event.NewSession ⟨7⟩, Event.StdinPipe sampleSession,
        Event.RequestPty sampleSession "vt220" 40 80 [(53, 0)],
        Event.stdout "RequestPty failed ssh: pty-req failed\n" ] :=
  (((((((C5_failure_is_terminal
    { sampleEnv with RequestPty := fun _ _ _ _ _ => some "ssh: pty-req failed" }
    sampleArgs 3 sampleProc rfl).2.2.2.2 (by decide) (by decide)).2
      [45, 45, 45] rfl).2 ⟨[45, 45, 45]⟩ rfl).2 ⟨7⟩ rfl).2 1 rfl).2 ⟨9⟩ rfl).1
        "ssh: pty-req failed" rfl

/-- C6 at `-user alice -pkey k` in the all-success environment. -/
theorem C6_dial_config_witness :
    Event.Dial "tcp" "127.0.0.1:22" sampleConfig ∈ (main sampleEnv sampleArgs 0).trace ∧
    ∃ p pKey signer,
      Proc.start.flagParse sampleArgs = .ok p ∧
      sampleEnv.ReadFile p.vars.pKeyFile = .ok pKey ∧
      sampleEnv.ParsePrivateKey pKey = .ok signer ∧
      sampleConfig.User = p.vars.username ∧
      sampleConfig.Auth = [AuthMethod.PublicKeys [signer]] ∧
      sampleConfig.Auth.length = 1 ∧
      (∀ hostname remote key, sampleConfig.HostKeyCallback.call hostname remote key = none) :=
  ⟨by decide,
    C6_dial_config sampleEnv sampleArgs 0 "tcp" "127.0.0.1:22" sampleConfig (by decide)⟩

/-- C7 at `-user alice -pkey k`: host and port keep their defaults and the dial
goes to `127.0.0.1:22`; and at a list mixing the four ways of writing a flag,
with `-user` supplied twice and a trailing file name. -/
theorem C7_defaults_and_overrides_witness :
    sampleProc.vars.serverIP = "127.0.0.1" ∧ sampleProc.vars.serverPort = "22" ∧
    (main sampleEnv sampleArgs 0).trace.take 3 =
      [ Event.ReadFile "k", Event.ParsePrivateKey [45, 45, 45],
        Event.Dial "tcp" "127.0.0.1:22" sampleConfig ] ∧
    (∃ q, Proc.start.flagParse
        ["--ip=10.0.0.5", "-user", "alice", "-port=2222", "--user", "bob", "file"] = .ok q ∧
      q.vars = ⟨"bob", "10.0.0.5", "2222", ""⟩ ∧ q.flags.args = ["file"]) ∧
    (∃ (fas : List Supplied) (tail : List String),
      sampleArgs = fas.flatMap Supplied.render ++ tail ∧
      sampleProc.vars = fas.foldl Supplied.override ⟨"", "127.0.0.1", "22", ""⟩ ∧
      (tail = sampleProc.flags.args ∨ tail = "--" :: sampleProc.flags.args)) :=
  ⟨(C7_defaults_and_overrides sampleArgs sampleProc rfl).1 (by decide),
    (C7_defaults_and_overrides sampleArgs sampleProc rfl).2.1 (by decide),
    (C7_defaults_and_overrides sampleArgs sampleProc rfl).2.2.2.2.1 sampleEnv 0 [45, 45, 45]
      ⟨[45, 45, 45]⟩ (by decide) (by decide) (by decide) (by decide) rfl rfl,
    (C7_defaults_and_overrides sampleArgs sampleProc rfl).2.2.2.2.2.2.2.1
      [⟨.serverIP, true, true, "10.0.0.5"⟩, ⟨.username, false, false, "alice"⟩,
        ⟨.serverPort, false, true, "2222"⟩, ⟨.username, true, false, "bob"⟩]
      ["file"] (by intro r h; cases h; decide),
    (C7_defaults_and_overrides sampleArgs sampleProc rfl).2.2.2.2.2.2.2.2⟩

/-- C9 at an argument list that sets `-user` twice, `-ip` once, and ends in a non-flag argument. -/
theorem C9_parse_idempotent_witness :
    Proc.start.flagParse ["-user", "alice", "-ip=10.0.0.5", "-user", "bob", "rest"]
      = .ok ⟨⟨"bob", "10.0.0.5", "22", ""⟩,
          ⟨true, ["ip", "user"], init.1.formal, ["rest"]⟩, [], [], .running⟩ ∧
    ∃ q, Proc.flagParse ⟨⟨"bob", "10.0.0.5", "22", ""⟩,
          ⟨true, ["ip", "user"], init.1.formal, ["rest"]⟩, [], [], .running⟩
        ["-user", "alice", "-ip=10.0.0.5", "-user", "bob", "rest"] = .ok q ∧
      q.vars = ⟨"bob", "10.0.0.5", "22", ""⟩ ∧ q.flags.args = ["rest"] :=
  ⟨rfl, C9_parse_idempotent ["-user", "alice", "-ip=10.0.0.5", "-user", "bob", "rest"]
    ⟨⟨"bob", "10.0.0.5", "22", ""⟩,
      ⟨true, ["ip", "user"], init.1.formal, ["rest"]⟩, [], [], .running⟩ rfl⟩

/-- C10 at `-user alice -pkey k` in the all-success environment, five and six loop iterations. -/
theorem C10_copy_loop_never_exits_witness :
    (main sampleEnv sampleArgs 5).status = .running ∧
    (main sampleEnv sampleArgs 6).trace
      = (main sampleEnv sampleArgs 5).trace ++ [Event.Copy ⟨9⟩ .Stdin] ∧
    (main sampleEnv sampleArgs 5).trace.count (Event.Copy ⟨9⟩ .Stdin) = 5 ∧
    main { sampleEnv with Copy := fun _ => (0, some "EOF") } sampleArgs 5
      = main sampleEnv sampleArgs 5 :=
  ⟨(C10_copy_loop_never_exits sampleEnv sampleArgs sampleProc [45, 45, 45] ⟨[45, 45, 45]⟩
      ⟨7⟩ 1 ⟨9⟩ rfl (by decide) (by decide) rfl rfl rfl rfl rfl rfl rfl 5).1,
    (C10_copy_loop_never_exits sampleEnv sampleArgs sampleProc [45, 45, 45] ⟨[45, 45, 45]⟩
      ⟨7⟩ 1 ⟨9⟩ rfl (by decide) (by decide) rfl rfl rfl rfl rfl rfl rfl 5).2.2.1,
    (C10_copy_loop_never_exits sampleEnv sampleArgs sampleProc [45, 45, 45] ⟨[45, 45, 45]⟩
      ⟨7⟩ 1 ⟨9⟩ rfl (by decide) (by decide) rfl rfl rfl rfl rfl rfl rfl 5).2.2.2.1,
    (C10_copy_loop_never_exits sampleEnv sampleArgs sampleProc [45, 45, 45] ⟨[45, 45, 45]⟩
      ⟨7⟩ 1 ⟨9⟩ rfl (by decide) (by decide) rfl rfl rfl rfl rfl rfl rfl 5).2.2.2.2
        (fun _ => (0, some "EOF"))⟩

end SSHClient
